import Mathlib

/-!
Verification development for the sigma-auth client plugin.

The repository is a browser-side OAuth 2.0 authorization-code + PKCE client
(`signIn.sigma`, `handleCallback` in `src/index.ts` and its variants) together
with a server-side token-exchange helper (`exchangeCodeForTokens` in
`src/token-exchange.ts`).  The definitions below are a shallow embedding of
that code: browser storage becomes an explicit record of the four session keys
the code touches, `fetch` becomes an oracle of HTTP responses plus a recorded
trace of outgoing requests, and JavaScript string-or-null values become
`Option String` with JS truthiness made explicit.
-/

namespace SigmaAuth

/-- JS truthiness of a string-or-null value (`if (x)` on a `string | null`):
`null` and the empty string are falsy, every other string is truthy. -/
def isTruthy : Option String → Bool
  | none => false
  | some s => s ≠ ""

/-- JS `x || d` on a string-or-null `x` with a string default `d`. -/
def orDefault (x : Option String) (d : String) : String :=
  if isTruthy x then x.getD "" else d

/-- UTF-8 bytes of a string, as natural numbers below 256.  Models
`new TextEncoder().encode(s)`. -/
def utf8Bytes (s : String) : List Nat :=
  s.toUTF8.toList.map (fun b => b.toNat)

/-- Uppercase hexadecimal digit for a value below 16. -/
def hexDigit (n : Nat) : Char :=
  if n < 10 then Char.ofNat (48 + n) else Char.ofNat (55 + n)

/-- Bytes that `URLSearchParams.toString` leaves unescaped:
ASCII alphanumerics and `*`, `-`, `.`, `_`. -/
def isUrlSafeByte (b : Nat) : Bool :=
  (48 ≤ b && b ≤ 57) || (65 ≤ b && b ≤ 90) || (97 ≤ b && b ≤ 122) ||
    b = 42 || b = 45 || b = 46 || b = 95

/-- `application/x-www-form-urlencoded` encoding of one byte: space becomes
`+`, safe bytes stay themselves, everything else becomes `%XX`. -/
def encodeByte (b : Nat) : List Char :=
  if b = 32 then ['+']
  else if isUrlSafeByte b then [Char.ofNat b]
  else ['%', hexDigit (b / 16), hexDigit (b % 16)]

/-- Percent-encoding of a string as `URLSearchParams` serializes a key or a
value. -/
def urlencode (s : String) : String :=
  String.mk ((utf8Bytes s).flatMap encodeByte)

/-- Serialization of a key-value list as `new URLSearchParams(ps).toString()`:
`k1=v1&k2=v2&...` with each component percent-encoded. -/
def urlEncodeParams (ps : List (String × String)) : String :=
  String.intercalate "&" (ps.map fun p => urlencode p.1 ++ "=" ++ urlencode p.2)

/-- The standard base64 alphabet. -/
def b64Alphabet : List Char :=
  "ABCDEFGHIJKLMNOPQRSTUVWXYZabcdefghijklmnopqrstuvwxyz0123456789+/".toList

/-- Character of the base64 alphabet at an index below 64. -/
def b64Char (n : Nat) : Char := b64Alphabet.getD n 'A'

/-- Base64 encoding of a byte list with `=` padding, as `btoa` produces on a
binary string. -/
def base64Encode : List Nat → List Char
  | [] => []
  | [a] => [b64Char (a / 4), b64Char (a % 4 * 16), '=', '=']
  | [a, b] => [b64Char (a / 4), b64Char (a % 4 * 16 + b / 16), b64Char (b % 16 * 4), '=']
  | a :: b :: c :: rest =>
    b64Char (a / 4) :: b64Char (a % 4 * 16 + b / 16) ::
      b64Char (b % 16 * 4 + c / 64) :: b64Char (c % 64) :: base64Encode rest

/-- Base64url transliteration of a base64 character: the code replaces `+`
with `-` and `/` with `_`. -/
def b64UrlChar (c : Char) : Char :=
  if c = '+' then '-' else if c = '/' then '_' else c

/-- Base64url without padding, exactly as the source computes it:
`btoa(...)` followed by replacing `+` with `-`, `/` with `_` and deleting
every `=`. -/
def base64Url (bytes : List Nat) : String :=
  String.mk (((base64Encode bytes).filter (fun c => c ≠ '=')).map b64UrlChar)

/-- `generateCodeChallenge` from `src/index.ts`: base64url of the SHA-256
digest of the UTF-8 bytes of the verifier.  The digest primitive
`crypto.subtle.digest("SHA-256", ...)` is external to the repository, so it is
a parameter `sha256` of the embedding. -/
def generateCodeChallenge (sha256 : List Nat → List Nat) (verifier : String) : String :=
  base64Url (sha256 (utf8Bytes verifier))

/-- The four `sessionStorage` keys the client code reads and writes:
`oauth_state`, `pkce_verifier`, `oauth_redirect_uri`, `oauth_client_id`.
`none` models an absent key (`getItem` returning `null`). -/
structure Store where
  oauthState : Option String := none
  pkceVerifier : Option String := none
  oauthRedirectUri : Option String := none
  oauthClientId : Option String := none
deriving DecidableEq, Repr

/-- The option bag of `signIn.sigma` for the OAuth-redirect mode (the
`authToken` local mode bypasses this flow entirely); only the fields the
redirect path reads are modelled. -/
structure SigmaOptions where
  clientId : Option String := none
  callbackURL : Option String := none
  provider : Option String := none
deriving DecidableEq, Repr

/-- Prefix test on character lists (second argument is the candidate
prefix). -/
def startsWithChars : List Char → List Char → Bool
  | _, [] => true
  | [], _ :: _ => false
  | c :: cs, p :: ps => c = p && startsWithChars cs ps

/-- `s.startsWith p` of JavaScript strings, over the characters. -/
def strStartsWith (s p : String) : Bool := startsWithChars s.toList p.toList

/-- An absolute URL in the sense of the specification: one carrying an
explicit `http` or `https` scheme. -/
def isAbsoluteUrl (s : String) : Bool :=
  strStartsWith s "http://" || strStartsWith s "https://"

/-- Redirect-URI resolution shared verbatim by `src/index.ts` (PKCE variant)
and `part_001`:
`callbackPath = options?.callbackURL || "/callback"`, then a path starting
with the string `http` is used as-is, otherwise it is appended to the current
origin with a `/` prepended when missing. -/
def resolveRedirectUri (origin : String) (callbackURL : Option String) : String :=
  let callbackPath := orDefault callbackURL "/callback"
  if strStartsWith callbackPath "http" then callbackPath
  else if strStartsWith callbackPath "/" then origin ++ callbackPath
  else origin ++ "/" ++ callbackPath

/-- Result of one run of the redirect-mode `signIn.sigma`: the query
parameters handed to `URLSearchParams`, the full authorization URL the browser
is navigated to, and the session storage after the writes. -/
structure AuthorizeRequest where
  queryParams : List (String × String)
  url : String
  store : Store
deriving DecidableEq, Repr

/-- `signIn.sigma` (OAuth-redirect mode, no `authToken`) of the PKCE variant
in `src/index.ts`.  The freshly generated random `state` and `codeVerifier`
and the ambient `authUrl` (environment) and `origin`
(`window.location.origin`) are parameters; the SHA-256 primitive is the
parameter `sha256`.  It stores `oauth_state` and `pkce_verifier`, resolves the
redirect URI, and builds the authorization URL with `client_id` / `provider`
appended exactly when the corresponding option is truthy. -/
def sigmaIndexTs (authUrl origin state codeVerifier : String)
    (sha256 : List Nat → List Nat) (options : SigmaOptions) (store : Store) :
    AuthorizeRequest :=
  let codeChallenge := generateCodeChallenge sha256 codeVerifier
  let store := { store with oauthState := some state, pkceVerifier := some codeVerifier }
  let redirectUri := resolveRedirectUri origin options.callbackURL
  let params : List (String × String) :=
    [("redirect_uri", redirectUri), ("response_type", "code"), ("state", state),
     ("scope", "openid profile bsv:tools"), ("code_challenge", codeChallenge),
     ("code_challenge_method", "S256")]
  let params := params ++
    (if isTruthy options.clientId then [("client_id", options.clientId.getD "")] else [])
  let params := params ++
    (if isTruthy options.provider then [("provider", options.provider.getD "")] else [])
  { queryParams := params,
    url := authUrl ++ "/oauth2/authorize?" ++ urlEncodeParams params,
    store := store }

/-- `signIn.sigma` (OAuth-redirect mode) of the `part_001` variant.  It
differs from `sigmaIndexTs` in defaulting the client id to the literal
`"unknown"` (`options?.clientId || "unknown"`), persisting all four FlowState
keys, and appending `client_id` under `if (clientId)` — always true since the
default is non-empty. -/
def sigmaPart1 (authUrl origin state codeVerifier : String)
    (sha256 : List Nat → List Nat) (options : SigmaOptions) (store : Store) :
    AuthorizeRequest :=
  let codeChallenge := generateCodeChallenge sha256 codeVerifier
  let redirectUri := resolveRedirectUri origin options.callbackURL
  let clientId := orDefault options.clientId "unknown"
  let store := { store with
    oauthState := some state
    pkceVerifier := some codeVerifier
    oauthRedirectUri := some redirectUri
    oauthClientId := some clientId }
  let params : List (String × String) :=
    [("redirect_uri", redirectUri), ("response_type", "code"), ("state", state),
     ("scope", "openid profile bsv:tools"), ("code_challenge", codeChallenge),
     ("code_challenge_method", "S256")]
  let params := params ++ (if clientId ≠ "" then [("client_id", clientId)] else [])
  let params := params ++
    (if isTruthy options.provider then [("provider", options.provider.getD "")] else [])
  { queryParams := params,
    url := authUrl ++ "/oauth2/authorize?" ++ urlEncodeParams params,
    store := store }

/-- The callback query parameters `handleCallback` consumes: the values of
`searchParams.get` for `error`, `error_description`, `code` and `state`
(`none` models `null` for an absent parameter). -/
structure CallbackParams where
  error : Option String := none
  errorDescription : Option String := none
  code : Option String := none
  state : Option String := none
deriving DecidableEq, Repr

/-- The structured error `handleCallback` throws (`OAuthCallbackError` in the
source). -/
structure OAuthCallbackError where
  title : String
  message : String
deriving DecidableEq, Repr

/-- The success value `handleCallback` resolves with (`OAuthCallbackResult`);
the user-info claims bag is opaque to the client, modelled as a string. -/
structure OAuthCallbackResult where
  user : String
  accessToken : String
  refreshToken : Option String := none
deriving DecidableEq, Repr

/-- Fields of the token endpoint error body that `handleCallback` reads after
`await tokenResponse.json()`: a JSON body of the shape
`\x7b "error": e, "error_description": d \x7d` parses to the corresponding
options. -/
structure TokenErrorBody where
  error : Option String := none
  errorDescription : Option String := none
deriving DecidableEq, Repr

/-- Fields of the token endpoint success body that the code reads. -/
structure TokenJson where
  accessToken : String
  refreshToken : Option String := none
deriving DecidableEq, Repr

/-- External behaviour of the token endpoint `fetch`: HTTP success flag and
status, the raw body text (`await .text()`), and the results of
`await .json()` on the failure and success paths (`none` when the body is not
parseable JSON). -/
structure TokenResponse where
  ok : Bool
  status : Nat
  text : String := ""
  errorJson : Option TokenErrorBody := none
  okJson : Option TokenJson := none
deriving DecidableEq, Repr

/-- External behaviour of the userinfo endpoint `fetch`; the parsed claims
are opaque. -/
structure UserinfoResponse where
  ok : Bool
  status : Nat
  text : String := ""
  json : Option String := none
deriving DecidableEq, Repr

/-- The network oracle for one `handleCallback` run: responses the two
possible `fetch` calls would receive. -/
structure Oracle where
  tokenResp : TokenResponse
  userinfoResp : UserinfoResponse
deriving DecidableEq, Repr

/-- One outgoing network call of `handleCallback`: the token POST carries a
form whose wire body is `urlEncodeParams form`, the userinfo GET carries its
`Authorization` header value. -/
inductive NetCall where
  | tokenPost (url : String) (form : List (String × String))
  | userinfoGet (url : String) (authHeader : String)
deriving DecidableEq, Repr

deriving instance DecidableEq for Except

/-- Observable outcome of one `handleCallback` run: its result, the session
storage afterwards, and the network calls made, in order. -/
structure CallbackRun where
  result : Except OAuthCallbackError OAuthCallbackResult
  store : Store
  calls : List NetCall
deriving DecidableEq, Repr

/-- The title/message pairs thrown by `handleCallback` in `part_001`,
verbatim from the source. -/
def authenticationErrorTitle : String := "Authentication Error"

/-- Default message of the leading error branch. -/
def unknownAuthErrorMsg : String := "An unknown error occurred during authentication."

/-- The Security Error thrown on a state mismatch. -/
def securityError : OAuthCallbackError :=
  { title := "Security Error",
    message := "Invalid state parameter. Please try signing in again." }

/-- The error thrown when the `code` parameter is missing. -/
def missingCodeError : OAuthCallbackError :=
  { title := "Missing Authorization Code",
    message := "The authorization code was not received from the authentication server." }

/-- Defaults of the token-exchange failure branch. -/
def tokenExchangeFailedError : OAuthCallbackError :=
  { title := "Token Exchange Failed",
    message := "Failed to exchange authorization code for access token." }

/-- The fixed pair for `error = "invalid_client"`. -/
def clientNotRegisteredError : OAuthCallbackError :=
  { title := "Client Not Registered",
    message := "This application is not registered with Sigma Identity." }

/-- The fixed pair for `error = "invalid_grant"`. -/
def invalidGrantError : OAuthCallbackError :=
  { title := "Invalid Authorization Code",
    message := "The authorization code is invalid or expired. Please try again." }

/-- The error thrown when the userinfo fetch fails. -/
def userInfoFailedError : OAuthCallbackError :=
  { title := "User Info Failed",
    message := "Failed to retrieve user information from Sigma." }

/-- Mapping of a failed token response to the thrown error, embedding the
`!tokenResponse.ok` branch of `handleCallback` in `part_001` (lines 279-310):
default title/message, overridden by `error_description` / `error` when the
body parses, and by the fixed `invalid_client` / `invalid_grant` pairs. -/
def tokenFailureError (errorJson : Option TokenErrorBody) : OAuthCallbackError :=
  match errorJson with
  | none => tokenExchangeFailedError
  | some e =>
    let msg :=
      if isTruthy e.errorDescription then e.errorDescription.getD ""
      else if isTruthy e.error then e.error.getD ""
      else tokenExchangeFailedError.message
    if e.error = some "invalid_client" then clientNotRegisteredError
    else if e.error = some "invalid_grant" then invalidGrantError
    else { title := tokenExchangeFailedError.title, message := msg }

/-- `handleCallback` of the `part_001` variant (lines 173-358), embedded as a
pure function of the query parameters, the session storage, and the network
oracle, in a browser context (`typeof window !== "undefined"`).  `authUrl` is
the ambient auth-server base URL and `origin` is `window.location.origin`.
A JSON parse exception on a success body propagates to the outer catch and is
wrapped as an Authentication Failed error, whose runtime-dependent exception
text is modelled as a fixed string. -/
def handleCallbackPart1 (authUrl origin : String) (params : CallbackParams)
    (store : Store) (oracle : Oracle) : CallbackRun :=
  if isTruthy params.error then
    { result := .error
        { title := authenticationErrorTitle,
          message :=
            if isTruthy params.errorDescription then params.errorDescription.getD ""
            else params.error.getD "" },
      store := store, calls := [] }
  else if ! isTruthy params.code then
    { result := .error missingCodeError, store := store, calls := [] }
  else
    let code := params.code.getD ""
    let savedState := store.oauthState
    let savedRedirectUri := store.oauthRedirectUri
    let savedClientId := store.oauthClientId
    if params.state ≠ savedState then
      { result := .error securityError,
        store := { store with
          oauthState := none
          oauthRedirectUri := none
          oauthClientId := none },
        calls := [] }
    else
      let codeVerifier := if isTruthy store.pkceVerifier then store.pkceVerifier else none
      let clearedStore : Store := {}
      let tokenForm : List (String × String) :=
        [("grant_type", "authorization_code"), ("code", code),
         ("redirect_uri", orDefault savedRedirectUri (origin ++ "/callback")),
         ("client_id", orDefault savedClientId "unknown")]
      let tokenForm := tokenForm ++
        (match codeVerifier with
         | some v => [("code_verifier", v)]
         | none => [])
      let tokenCall := NetCall.tokenPost (authUrl ++ "/api/auth/oauth2/token") tokenForm
      let tr := oracle.tokenResp
      if ! tr.ok then
        { result := .error (tokenFailureError tr.errorJson),
          store := clearedStore, calls := [tokenCall] }
      else
        match tr.okJson with
        | none =>
          { result := .error
              { title := "Authentication Failed", message := "JSON parse exception" },
            store := clearedStore, calls := [tokenCall] }
        | some tokens =>
          let userinfoCall := NetCall.userinfoGet (authUrl ++ "/api/auth/oauth2/userinfo")
            ("Bearer " ++ tokens.accessToken)
          let ur := oracle.userinfoResp
          if ! ur.ok then
            { result := .error userInfoFailedError,
              store := clearedStore, calls := [tokenCall, userinfoCall] }
          else
            match ur.json with
            | none =>
              { result := .error
                  { title := "Authentication Failed", message := "JSON parse exception" },
                store := clearedStore, calls := [tokenCall, userinfoCall] }
            | some userInfo =>
              { result := .ok
                  { user := userInfo, accessToken := tokens.accessToken,
                    refreshToken := tokens.refreshToken },
                store := clearedStore, calls := [tokenCall, userinfoCall] }

/-- `TokenExchangeOptions` from `src/token-exchange.ts`; `issuerUrl := none`
models an `undefined` argument, on which the destructuring default
`https://auth.sigmaidentity.com` applies. -/
structure TokenExchangeOptions where
  code : String
  redirectUri : String
  clientId : String
  memberPrivateKey : String
  codeVerifier : Option String := none
  issuerUrl : Option String := none
deriving DecidableEq, Repr

/-- The argument record handed to the external `getAuthToken` signer from the
`bitcoin-auth` package: the signature covers exactly these fields. -/
structure AuthTokenArgs where
  privateKeyWif : String
  requestPath : String
  body : String
deriving DecidableEq, Repr

/-- An outgoing HTTP request as `exchangeCodeForTokens` issues it through
`fetch`. -/
structure HttpRequest where
  url : String
  method : String
  headers : List (String × String)
  body : Option String := none
deriving DecidableEq, Repr

/-- `TokenExchangeError` from the source; the throw sites always populate the
optional fields. -/
structure TokenExchangeError where
  error : String
  details : Option String := none
  status : Option Nat := none
  endpoint : Option String := none
deriving DecidableEq, Repr

/-- `TokenExchangeResult` from the source; the user-info claims are opaque. -/
structure TokenExchangeResult where
  user : String
  accessToken : String
  refreshToken : Option String := none
deriving DecidableEq, Repr

/-- How one `exchangeCodeForTokens` run ends: a resolved result, a thrown
`TokenExchangeError`, or a propagated non-structured exception (a JSON parse
failure, which the function does not catch). -/
inductive ExchangeOutcome where
  | success (r : TokenExchangeResult)
  | failure (e : TokenExchangeError)
  | thrown (msg : String)
deriving DecidableEq, Repr

/-- Observable behaviour of one `exchangeCodeForTokens` run: the outcome, the
arguments the signer was invoked with, and the HTTP requests sent, in
order. -/
structure ExchangeRun where
  outcome : ExchangeOutcome
  signerArgs : AuthTokenArgs
  requests : List HttpRequest
deriving DecidableEq, Repr

/-- The `application/x-www-form-urlencoded` token request body
`exchangeCodeForTokens` builds: `grant_type`, `code`, `redirect_uri`,
`client_id` in insertion order, plus `code_verifier` when truthy. -/
def exchangeBodyParams (options : TokenExchangeOptions) : List (String × String) :=
  [("grant_type", "authorization_code"), ("code", options.code),
   ("redirect_uri", options.redirectUri), ("client_id", options.clientId)] ++
  (if isTruthy options.codeVerifier then [("code_verifier", options.codeVerifier.getD "")]
   else [])

/-- `exchangeCodeForTokens` from `src/token-exchange.ts` (lines 53-136),
embedded as a pure function of the options, the external signer
`getAuthToken`, and the two endpoint responses.  It signs
`requestPath = "/oauth2/token"` together with the serialized body, POSTs that
same body string to `issuerUrl + "/api/auth/oauth2/token"` with the signature
in the `X-Auth-Token` header, and on success GETs the userinfo endpoint with
the bearer token in `Authorization`. -/
def exchangeCodeForTokens (getAuthToken : AuthTokenArgs → String)
    (options : TokenExchangeOptions) (tokenResp : TokenResponse)
    (userinfoResp : UserinfoResponse) : ExchangeRun :=
  let issuerUrl := options.issuerUrl.getD "https://auth.sigmaidentity.com"
  let requestBody := urlEncodeParams (exchangeBodyParams options)
  let signerArgs : AuthTokenArgs :=
    { privateKeyWif := options.memberPrivateKey,
      requestPath := "/oauth2/token",
      body := requestBody }
  let authToken := getAuthToken signerArgs
  let tokenReq : HttpRequest :=
    { url := issuerUrl ++ "/api/auth/oauth2/token", method := "POST",
      headers := [("Content-Type", "application/x-www-form-urlencoded"),
                  ("X-Auth-Token", authToken)],
      body := some requestBody }
  if ! tokenResp.ok then
    { outcome := .failure
        { error := "Token exchange failed", details := some tokenResp.text,
          status := some tokenResp.status, endpoint := some "/api/auth/oauth2/token" },
      signerArgs := signerArgs, requests := [tokenReq] }
  else
    match tokenResp.okJson with
    | none =>
      { outcome := .thrown "JSON parse exception", signerArgs := signerArgs,
        requests := [tokenReq] }
    | some tokens =>
      let userinfoReq : HttpRequest :=
        { url := issuerUrl ++ "/api/auth/oauth2/userinfo", method := "GET",
          headers := [("Authorization", "Bearer " ++ tokens.accessToken)],
          body := none }
      if ! userinfoResp.ok then
        { outcome := .failure
            { error := "Failed to get user info", details := some userinfoResp.text,
              status := some userinfoResp.status,
              endpoint := some "/api/auth/oauth2/userinfo" },
          signerArgs := signerArgs, requests := [tokenReq, userinfoReq] }
      else
        match userinfoResp.json with
        | none =>
          { outcome := .thrown "JSON parse exception", signerArgs := signerArgs,
            requests := [tokenReq, userinfoReq] }
        | some userInfo =>
          { outcome := .success
              { user := userInfo, accessToken := tokens.accessToken,
                refreshToken := tokens.refreshToken },
            signerArgs := signerArgs, requests := [tokenReq, userinfoReq] }

/-- Characters following the first `://` of a URL, `none` when the URL has no
scheme separator. -/
def afterScheme : List Char → Option (List Char)
  | ':' :: '/' :: '/' :: rest => some rest
  | _ :: rest => afterScheme rest
  | [] => none

/-- Suffix of a character list starting at its first `/`. -/
def fromFirstSlash : List Char → List Char
  | [] => []
  | '/' :: rest => '/' :: rest
  | _ :: rest => fromFirstSlash rest

/-- Path component of an absolute URL: everything from the first `/` after
the scheme-and-host part (`/` when the URL has no path; a URL without a
scheme separator is returned unchanged). -/
def urlPath (url : String) : String :=
  match afterScheme url.toList with
  | some rest =>
    match fromFirstSlash rest with
    | [] => "/"
    | p => String.mk p
  | none => url

/-! Helper lemmas shared by the claim theorems. -/

/-- On a state mismatch (error absent, code truthy), `handleCallback` throws
the Security Error, erases `oauth_state`, `oauth_redirect_uri` and
`oauth_client_id` (but not `pkce_verifier`), and makes no network call. -/
theorem handleCallbackPart1_mismatch (authUrl origin : String)
    (params : CallbackParams) (store : Store) (oracle : Oracle)
    (herr : isTruthy params.error = false) (hcode : isTruthy params.code = true)
    (hstate : params.state ≠ store.oauthState) :
    handleCallbackPart1 authUrl origin params store oracle =
      { result := .error securityError,
        store := { store with
          oauthState := none
          oauthRedirectUri := none
          oauthClientId := none },
        calls := [] } := by
  rw [handleCallbackPart1, if_neg (by simp [herr]), if_neg (by simp [hcode]),
    if_pos hstate]

/-- When the error parameter is truthy, `handleCallback` returns from its
first branch: storage untouched, no network call. -/
theorem handleCallbackPart1_errorBranch (authUrl origin : String)
    (params : CallbackParams) (store : Store) (oracle : Oracle)
    (herr : isTruthy params.error = true) :
    handleCallbackPart1 authUrl origin params store oracle =
      { result := .error
          { title := authenticationErrorTitle,
            message :=
              if isTruthy params.errorDescription then params.errorDescription.getD ""
              else params.error.getD "" },
        store := store, calls := [] } := by
  rw [handleCallbackPart1, if_pos herr]

/-- When error is absent, code is truthy and the state matches, the run
erases all four storage keys, its first network call is the token POST with
the client id recovered from storage (defaulting to `unknown`), and the
result on a failed token response is `tokenFailureError`. -/
theorem handleCallbackPart1_matched (authUrl origin : String)
    (params : CallbackParams) (store : Store) (oracle : Oracle)
    (herr : isTruthy params.error = false) (hcode : isTruthy params.code = true)
    (hstate : params.state = store.oauthState) :
    (handleCallbackPart1 authUrl origin params store oracle).store = {} ∧
    (handleCallbackPart1 authUrl origin params store oracle).calls.head? =
      some (NetCall.tokenPost (authUrl ++ "/api/auth/oauth2/token")
        ([("grant_type", "authorization_code"), ("code", params.code.getD ""),
          ("redirect_uri", orDefault store.oauthRedirectUri (origin ++ "/callback")),
          ("client_id", orDefault store.oauthClientId "unknown")] ++
         (match (if isTruthy store.pkceVerifier then store.pkceVerifier else none) with
          | some v => [("code_verifier", v)]
          | none => []))) ∧
    (oracle.tokenResp.ok = false →
      (handleCallbackPart1 authUrl origin params store oracle).result =
        .error (tokenFailureError oracle.tokenResp.errorJson)) := by
  rw [handleCallbackPart1, if_neg (by simp [herr]), if_neg (by simp [hcode]),
    if_neg (by simp [hstate])]
  rcases htr : oracle.tokenResp.ok with _ | _
  · simp [htr]
  · rcases hoj : oracle.tokenResp.okJson with _ | tokens
    · simp [htr, hoj]
    · rcases hur : oracle.userinfoResp.ok with _ | _
      · simp [htr, hoj, hur]
      · rcases huj : oracle.userinfoResp.json with _ | ui <;>
          simp [htr, hoj, hur, huj]

/-! Claim theorems. -/

/-- C1: whenever `handleCallback` is invoked with a (non-empty) `code`
parameter and no `error` parameter, and the `state` query parameter is not
exactly equal to the state persisted in session storage, the call fails with
the error titled Security Error and makes zero network calls — the token and
userinfo endpoints are never fetched. -/
theorem C1_state_mismatch_fails_closed (authUrl origin : String)
    (params : CallbackParams) (store : Store) (oracle : Oracle)
    (herr : params.error = none) (hcode : isTruthy params.code = true)
    (hstate : params.state ≠ store.oauthState) :
    (handleCallbackPart1 authUrl origin params store oracle).result =
      .error securityError ∧
    (handleCallbackPart1 authUrl origin params store oracle).calls = [] := by
  rw [handleCallbackPart1_mismatch authUrl origin params store oracle
    (by simp [herr, isTruthy]) hcode hstate]
  exact ⟨rfl, rfl⟩

/-- Witness for C1: a concrete mismatching callback fails with the Security
Error and an empty call trace. -/
theorem C1_state_mismatch_fails_closed_witness :
    (handleCallbackPart1 "https://auth.sigmaidentity.com" "https://app.example"
        { code := some "abc", state := some "attacker" } { oauthState := some "legit" }
        ⟨{ ok := true, status := 200 }, { ok := true, status := 200 }⟩).result =
      .error securityError ∧
    (handleCallbackPart1 "https://auth.sigmaidentity.com" "https://app.example"
        { code := some "abc", state := some "attacker" } { oauthState := some "legit" }
        ⟨{ ok := true, status := 200 }, { ok := true, status := 200 }⟩).calls = [] :=
  C1_state_mismatch_fails_closed "https://auth.sigmaidentity.com" "https://app.example"
    { code := some "abc", state := some "attacker" } { oauthState := some "legit" }
    ⟨{ ok := true, status := 200 }, { ok := true, status := 200 }⟩
    rfl (by decide) (by decide)

/-- C2 (code bug): a callback carrying `code=abc`, no `error` and no `state`
parameter, against an empty session storage (no FlowState persisted at all),
does NOT fail before the token exchange: since `searchParams.get("state")`
and `sessionStorage.getItem("oauth_state")` are both `null`, the strict
inequality check passes, and the run proceeds to the token POST and the
userinfo GET and even resolves successfully.  This contradicts the claim (and
the documented CSRF intent of the check) that a callback with no matching
FlowState never reaches token exchange. -/
theorem C2_missing_flowstate_reaches_token_exchange :
    (handleCallbackPart1 "https://auth.sigmaidentity.com" "https://app.example"
        { code := some "abc" } {}
        ⟨{ ok := true, status := 200,
           okJson := some { accessToken := "tok1", refreshToken := some "ref1" } },
         { ok := true, status := 200, json := some "user1" }⟩).calls =
      [NetCall.tokenPost "https://auth.sigmaidentity.com/api/auth/oauth2/token"
        [("grant_type", "authorization_code"), ("code", "abc"),
         ("redirect_uri", "https://app.example/callback"), ("client_id", "unknown")],
       NetCall.userinfoGet "https://auth.sigmaidentity.com/api/auth/oauth2/userinfo"
        "Bearer tok1"] ∧
    (handleCallbackPart1 "https://auth.sigmaidentity.com" "https://app.example"
        { code := some "abc" } {}
        ⟨{ ok := true, status := 200,
           okJson := some { accessToken := "tok1", refreshToken := some "ref1" } },
         { ok := true, status := 200, json := some "user1" }⟩).result =
      .ok { user := "user1", accessToken := "tok1", refreshToken := some "ref1" } := by
  exact ⟨rfl, rfl⟩

/-- C3: whenever the callback query parameters carry a (non-empty) `error`
parameter, `handleCallback` fails immediately with title Authentication Error
and message `error_description` when that parameter is present (non-empty),
otherwise the `error` value; session storage is left untouched (in particular
nothing is erased) and no network call is made.  The statement holds for
every `code`, `state` and storage content, so the error short-circuit takes
priority over the code-presence check and over state validation. -/
theorem C3_error_param_short_circuits (authUrl origin : String)
    (params : CallbackParams) (store : Store) (oracle : Oracle)
    (herr : isTruthy params.error = true) :
    handleCallbackPart1 authUrl origin params store oracle =
      { result := .error
          { title := "Authentication Error",
            message :=
              if isTruthy params.errorDescription then params.errorDescription.getD ""
              else params.error.getD "" },
        store := store, calls := [] } :=
  handleCallbackPart1_errorBranch authUrl origin params store oracle herr

/-- Witness for C3, on the spec example
`error=access_denied&error_description=User declined`: the run fails with
message `User declined`, storage intact, no network call — even though a
FlowState is persisted and no code is present. -/
theorem C3_error_param_short_circuits_witness :
    handleCallbackPart1 "https://auth.sigmaidentity.com" "https://app.example"
        { error := some "access_denied", errorDescription := some "User declined" }
        { oauthState := some "s", pkceVerifier := some "v" }
        ⟨{ ok := true, status := 200 }, { ok := true, status := 200 }⟩ =
      { result := .error
          { title := "Authentication Error", message := "User declined" },
        store := { oauthState := some "s", pkceVerifier := some "v" }, calls := [] } := by
  have h := C3_error_param_short_circuits "https://auth.sigmaidentity.com"
    "https://app.example"
    { error := some "access_denied", errorDescription := some "User declined" }
    { oauthState := some "s", pkceVerifier := some "v" }
    ⟨{ ok := true, status := 200 }, { ok := true, status := 200 }⟩ (by decide)
  simpa using h

/-- C4 counterexample: the claim that EVERY FlowState entry is erased on any
invocation reaching the load step is false — on the state-mismatch path the
`pkce_verifier` entry survives.  Concretely: code present, no error, callback
state `t` against persisted state `s`, all four keys populated; after the run
`pkce_verifier` is still `v` (while the other three keys are erased and the
run failed with the Security Error). -/
theorem C4_counterexample_pkce_verifier_survives_mismatch :
    (handleCallbackPart1 "https://auth.sigmaidentity.com" "https://app.example"
        { code := some "abc", state := some "t" }
        { oauthState := some "s", pkceVerifier := some "v",
          oauthRedirectUri := some "https://app.example/callback",
          oauthClientId := some "cid" }
        ⟨{ ok := true, status := 200 }, { ok := true, status := 200 }⟩).store.pkceVerifier =
      some "v" ∧
    (handleCallbackPart1 "https://auth.sigmaidentity.com" "https://app.example"
        { code := some "abc", state := some "t" }
        { oauthState := some "s", pkceVerifier := some "v",
          oauthRedirectUri := some "https://app.example/callback",
          oauthClientId := some "cid" }
        ⟨{ ok := true, status := 200 }, { ok := true, status := 200 }⟩).result =
      .error securityError := by
  exact ⟨rfl, rfl⟩

/-- C4 (amended): on every invocation that reaches the load-FlowState step
(code truthy, no error parameter), the persisted `oauth_state`,
`oauth_redirect_uri` and `oauth_client_id` entries are erased regardless of
outcome; the `pkce_verifier` entry is additionally erased whenever state
validation passes (on the state-mismatch path it survives — see the
counterexample).  Since `oauth_state` is always erased, a second invocation
simulating replay, carrying any non-null state parameter, finds no matching
state and fails with the Security Error. -/
theorem C4_flowstate_single_use (authUrl origin : String)
    (params : CallbackParams) (store : Store) (oracle : Oracle)
    (params2 : CallbackParams) (oracle2 : Oracle) (s2 : String)
    (herr : params.error = none) (hcode : isTruthy params.code = true)
    (herr2 : params2.error = none) (hcode2 : isTruthy params2.code = true)
    (hstate2 : params2.state = some s2) :
    (handleCallbackPart1 authUrl origin params store oracle).store.oauthState = none ∧
    (handleCallbackPart1 authUrl origin params store oracle).store.oauthRedirectUri = none ∧
    (handleCallbackPart1 authUrl origin params store oracle).store.oauthClientId = none ∧
    (params.state = store.oauthState →
      (handleCallbackPart1 authUrl origin params store oracle).store.pkceVerifier = none) ∧
    (handleCallbackPart1 authUrl origin params2
        (handleCallbackPart1 authUrl origin params store oracle).store oracle2).result =
      .error securityError := by
  have herr' : isTruthy params.error = false := by simp [herr, isTruthy]
  have herr2' : isTruthy params2.error = false := by simp [herr2, isTruthy]
  by_cases hstate : params.state = store.oauthState
  · obtain ⟨hstore, -, -⟩ :=
      handleCallbackPart1_matched authUrl origin params store oracle herr' hcode hstate
    refine ⟨by rw [hstore], by rw [hstore], by rw [hstore], fun _ => by rw [hstore], ?_⟩
    have hmis := handleCallbackPart1_mismatch authUrl origin params2
      (handleCallbackPart1 authUrl origin params store oracle).store oracle2
      herr2' hcode2 (by rw [hstore, hstate2]; exact fun h => Option.noConfusion h)
    rw [hmis]
  · have hrun := handleCallbackPart1_mismatch authUrl origin params store oracle
      herr' hcode hstate
    refine ⟨by rw [hrun], by rw [hrun], by rw [hrun], fun h => absurd h hstate, ?_⟩
    have hmis := handleCallbackPart1_mismatch authUrl origin params2
      (handleCallbackPart1 authUrl origin params store oracle).store oracle2
      herr2' hcode2 (by rw [hrun, hstate2]; exact fun h => Option.noConfusion h)
    rw [hmis]

/-- Witness for the amended C4: a concrete matched run erases all four keys
and a concrete replay against the resulting storage fails with the Security
Error. -/
theorem C4_flowstate_single_use_witness :
    (handleCallbackPart1 "https://auth.sigmaidentity.com" "https://app.example"
        { code := some "abc", state := some "s" }
        { oauthState := some "s", pkceVerifier := some "v",
          oauthRedirectUri := some "https://app.example/callback",
          oauthClientId := some "cid" }
        ⟨{ ok := true, status := 200,
           okJson := some { accessToken := "tok1" } },
         { ok := true, status := 200, json := some "user1" }⟩).store.oauthState = none ∧
    (handleCallbackPart1 "https://auth.sigmaidentity.com" "https://app.example"
        { code := some "abc", state := some "s" }
        { oauthState := some "s", pkceVerifier := some "v",
          oauthRedirectUri := some "https://app.example/callback",
          oauthClientId := some "cid" }
        ⟨{ ok := true, status := 200,
           okJson := some { accessToken := "tok1" } },
         { ok := true, status := 200, json := some "user1" }⟩).store.oauthRedirectUri = none ∧
    (handleCallbackPart1 "https://auth.sigmaidentity.com" "https://app.example"
        { code := some "abc", state := some "s" }
        { oauthState := some "s", pkceVerifier := some "v",
          oauthRedirectUri := some "https://app.example/callback",
          oauthClientId := some "cid" }
        ⟨{ ok := true, status := 200,
           okJson := some { accessToken := "tok1" } },
         { ok := true, status := 200, json := some "user1" }⟩).store.oauthClientId = none ∧
    (( { code := some "abc", state := some "s" } : CallbackParams).state =
        ({ oauthState := some "s", pkceVerifier := some "v",
           oauthRedirectUri := some "https://app.example/callback",
           oauthClientId := some "cid" } : Store).oauthState →
      (handleCallbackPart1 "https://auth.sigmaidentity.com" "https://app.example"
        { code := some "abc", state := some "s" }
        { oauthState := some "s", pkceVerifier := some "v",
          oauthRedirectUri := some "https://app.example/callback",
          oauthClientId := some "cid" }
        ⟨{ ok := true, status := 200,
           okJson := some { accessToken := "tok1" } },
         { ok := true, status := 200, json := some "user1" }⟩).store.pkceVerifier = none) ∧
    (handleCallbackPart1 "https://auth.sigmaidentity.com" "https://app.example"
        { code := some "abc", state := some "s" }
        (handleCallbackPart1 "https://auth.sigmaidentity.com" "https://app.example"
          { code := some "abc", state := some "s" }
          { oauthState := some "s", pkceVerifier := some "v",
            oauthRedirectUri := some "https://app.example/callback",
            oauthClientId := some "cid" }
          ⟨{ ok := true, status := 200,
             okJson := some { accessToken := "tok1" } },
           { ok := true, status := 200, json := some "user1" }⟩).store
        ⟨{ ok := true, status := 200,
           okJson := some { accessToken := "tok1" } },
         { ok := true, status := 200, json := some "user1" }⟩).result =
      .error securityError :=
  C4_flowstate_single_use "https://auth.sigmaidentity.com" "https://app.example"
    { code := some "abc", state := some "s" }
    { oauthState := some "s", pkceVerifier := some "v",
      oauthRedirectUri := some "https://app.example/callback",
      oauthClientId := some "cid" }
    ⟨{ ok := true, status := 200, okJson := some { accessToken := "tok1" } },
     { ok := true, status := 200, json := some "user1" }⟩
    { code := some "abc", state := some "s" }
    ⟨{ ok := true, status := 200, okJson := some { accessToken := "tok1" } },
     { ok := true, status := 200, json := some "user1" }⟩
    "s" rfl (by decide) rfl (by decide) rfl

/-- C5 counterexample: the signed path does NOT equal the path of the URL the
body is POSTed to.  On a concrete call, the signer receives the fixed
`requestPath = "/oauth2/token"` while the token request goes to a URL whose
path is `/api/auth/oauth2/token`. -/
theorem C5_counterexample_signed_path_differs :
    (exchangeCodeForTokens (fun a => "sig-" ++ a.body)
        { code := "c", redirectUri := "https://app.example/cb", clientId := "cid",
          memberPrivateKey := "K" }
        { ok := true, status := 200, okJson := some { accessToken := "tok1" } }
        { ok := true, status := 200, json := some "u" }).signerArgs.requestPath =
      "/oauth2/token" ∧
    ((exchangeCodeForTokens (fun a => "sig-" ++ a.body)
        { code := "c", redirectUri := "https://app.example/cb", clientId := "cid",
          memberPrivateKey := "K" }
        { ok := true, status := 200, okJson := some { accessToken := "tok1" } }
        { ok := true, status := 200, json := some "u" }).requests.map
          (fun r => urlPath r.url)).head? = some "/api/auth/oauth2/token" ∧
    ("/oauth2/token" : String) ≠ "/api/auth/oauth2/token" :=
  ⟨rfl, by decide, by decide⟩

/-- C5 (amended): on every call of `exchangeCodeForTokens`, the signed body
bytes equal the POSTed body verbatim (the same serialized string is handed to
the signer and sent), and the signature is carried in the dedicated
`X-Auth-Token` header — the token request carries no `Authorization` header,
which appears only on the subsequent userinfo request as a bearer token.  The
signed path, however, is the fixed server-route string `/oauth2/token`, while
the body is POSTed to `issuerUrl ++ "/api/auth/oauth2/token"` (the
`/api/auth` mount prefix is not part of the signed path). -/
theorem C5_signature_binds_body_not_posted_path (fn : AuthTokenArgs → String)
    (options : TokenExchangeOptions) (tr : TokenResponse) (ur : UserinfoResponse) :
    (exchangeCodeForTokens fn options tr ur).signerArgs =
      { privateKeyWif := options.memberPrivateKey, requestPath := "/oauth2/token",
        body := urlEncodeParams (exchangeBodyParams options) } ∧
    (exchangeCodeForTokens fn options tr ur).requests.head? = some
      { url := options.issuerUrl.getD "https://auth.sigmaidentity.com" ++
          "/api/auth/oauth2/token",
        method := "POST",
        headers := [("Content-Type", "application/x-www-form-urlencoded"),
          ("X-Auth-Token", fn (exchangeCodeForTokens fn options tr ur).signerArgs)],
        body := some (exchangeCodeForTokens fn options tr ur).signerArgs.body } ∧
    ∀ r ∈ (exchangeCodeForTokens fn options tr ur).requests.tail, ∃ tok,
      r = { url := options.issuerUrl.getD "https://auth.sigmaidentity.com" ++
              "/api/auth/oauth2/userinfo",
            method := "GET",
            headers := [("Authorization", "Bearer " ++ tok)], body := none } := by
  simp only [exchangeCodeForTokens]
  rcases htr : tr.ok with _ | _
  · exact ⟨rfl, rfl, by simp⟩
  · rcases hoj : tr.okJson with _ | tokens
    · exact ⟨rfl, rfl, by simp⟩
    · rcases hur : ur.ok with _ | _
      · refine ⟨rfl, rfl, ?_⟩
        intro r hr
        simp at hr
        exact ⟨tokens.accessToken, hr⟩
      · rcases huj : ur.json with _ | ui
        · refine ⟨rfl, rfl, ?_⟩
          intro r hr
          simp at hr
          exact ⟨tokens.accessToken, hr⟩
        · refine ⟨rfl, rfl, ?_⟩
          intro r hr
          simp at hr
          exact ⟨tokens.accessToken, hr⟩

/-- C6: whenever the token endpoint or the userinfo endpoint responds with a
non-success HTTP status, `exchangeCodeForTokens` throws a structured error
whose `details` field is the raw response body text of the failing endpoint,
whose `status` is that response's HTTP status, and whose `endpoint` names the
failing endpoint — the provider's detail text is surfaced, not swallowed. -/
theorem C6_nonsuccess_details_surfaced (fn : AuthTokenArgs → String)
    (options : TokenExchangeOptions) (tr : TokenResponse) (ur : UserinfoResponse)
    (tj : TokenJson) :
    (tr.ok = false →
      (exchangeCodeForTokens fn options tr ur).outcome =
        .failure { error := "Token exchange failed", details := some tr.text,
                   status := some tr.status,
                   endpoint := some "/api/auth/oauth2/token" }) ∧
    (tr.ok = true → tr.okJson = some tj → ur.ok = false →
      (exchangeCodeForTokens fn options tr ur).outcome =
        .failure { error := "Failed to get user info", details := some ur.text,
                   status := some ur.status,
                   endpoint := some "/api/auth/oauth2/userinfo" }) := by
  constructor
  · intro htr
    simp [exchangeCodeForTokens, htr]
  · intro htr hoj hur
    simp [exchangeCodeForTokens, htr, hoj, hur]

/-- Witness for C6, at concrete failing responses for each of the two
endpoints: the provider body text, status and endpoint name are surfaced
verbatim. -/
theorem C6_nonsuccess_details_surfaced_witness :
    (exchangeCodeForTokens (fun a => "sig-" ++ a.body)
        { code := "c", redirectUri := "https://app.example/cb", clientId := "cid",
          memberPrivateKey := "K" }
        { ok := false, status := 400, text := "provider-detail-text" }
        { ok := true, status := 200 }).outcome =
      .failure { error := "Token exchange failed",
                 details := some "provider-detail-text",
                 status := some 400, endpoint := some "/api/auth/oauth2/token" } ∧
    (exchangeCodeForTokens (fun a => "sig-" ++ a.body)
        { code := "c", redirectUri := "https://app.example/cb", clientId := "cid",
          memberPrivateKey := "K" }
        { ok := true, status := 200, okJson := some { accessToken := "tok1" } }
        { ok := false, status := 503, text := "userinfo-detail" }).outcome =
      .failure { error := "Failed to get user info",
                 details := some "userinfo-detail",
                 status := some 503, endpoint := some "/api/auth/oauth2/userinfo" } :=
  ⟨(C6_nonsuccess_details_surfaced (fun a => "sig-" ++ a.body)
      { code := "c", redirectUri := "https://app.example/cb", clientId := "cid",
        memberPrivateKey := "K" }
      { ok := false, status := 400, text := "provider-detail-text" }
      { ok := true, status := 200 } { accessToken := "tok1" }).1 rfl,
   (C6_nonsuccess_details_surfaced (fun a => "sig-" ++ a.body)
      { code := "c", redirectUri := "https://app.example/cb", clientId := "cid",
        memberPrivateKey := "K" }
      { ok := true, status := 200, okJson := some { accessToken := "tok1" } }
      { ok := false, status := 503, text := "userinfo-detail" }
      { accessToken := "tok1" }).2 rfl rfl rfl⟩

/-- C7: when `handleCallback` reaches the token exchange (code truthy, no
error, state matching) and the token endpoint rejects it, an HTTP 400
response whose JSON body carries `error = invalid_grant` maps to the fixed
Invalid Authorization Code pair, an HTTP 400 body with
`error = invalid_client` maps to the fixed Client Not Registered pair, and an
unparseable/generic failure maps to the fixed Token Exchange Failed pair; the
three structured title/message pairs are pairwise distinct and none is a raw
stack trace. -/
theorem C7_token_errors_distinguished (authUrl origin : String)
    (params : CallbackParams) (store : Store) (ur : UserinfoResponse)
    (herr : params.error = none) (hcode : isTruthy params.code = true)
    (hstate : params.state = store.oauthState) :
    (handleCallbackPart1 authUrl origin params store
        ⟨{ ok := false, status := 400,
           errorJson := some { error := some "invalid_grant" } }, ur⟩).result =
      .error invalidGrantError ∧
    (handleCallbackPart1 authUrl origin params store
        ⟨{ ok := false, status := 400,
           errorJson := some { error := some "invalid_client" } }, ur⟩).result =
      .error clientNotRegisteredError ∧
    (handleCallbackPart1 authUrl origin params store
        ⟨{ ok := false, status := 500, errorJson := none }, ur⟩).result =
      .error tokenExchangeFailedError ∧
    invalidGrantError ≠ clientNotRegisteredError ∧
    invalidGrantError ≠ tokenExchangeFailedError ∧
    clientNotRegisteredError ≠ tokenExchangeFailedError := by
  have herr' : isTruthy params.error = false := by simp [herr, isTruthy]
  obtain ⟨-, -, h1⟩ := handleCallbackPart1_matched authUrl origin params store
    ⟨{ ok := false, status := 400,
       errorJson := some { error := some "invalid_grant" } }, ur⟩ herr' hcode hstate
  obtain ⟨-, -, h2⟩ := handleCallbackPart1_matched authUrl origin params store
    ⟨{ ok := false, status := 400,
       errorJson := some { error := some "invalid_client" } }, ur⟩ herr' hcode hstate
  obtain ⟨-, -, h3⟩ := handleCallbackPart1_matched authUrl origin params store
    ⟨{ ok := false, status := 500, errorJson := none }, ur⟩ herr' hcode hstate
  refine ⟨?_, ?_, ?_, by decide, by decide, by decide⟩
  · rw [h1 rfl]; rfl
  · rw [h2 rfl]; rfl
  · rw [h3 rfl]; rfl

/-- Witness for C7 at a concrete matched callback. -/
theorem C7_token_errors_distinguished_witness :
    (handleCallbackPart1 "https://auth.sigmaidentity.com" "https://app.example"
        { code := some "abc", state := some "s" } { oauthState := some "s" }
        ⟨{ ok := false, status := 400,
           errorJson := some { error := some "invalid_grant" } },
         { ok := true, status := 200 }⟩).result = .error invalidGrantError ∧
    (handleCallbackPart1 "https://auth.sigmaidentity.com" "https://app.example"
        { code := some "abc", state := some "s" } { oauthState := some "s" }
        ⟨{ ok := false, status := 400,
           errorJson := some { error := some "invalid_client" } },
         { ok := true, status := 200 }⟩).result = .error clientNotRegisteredError ∧
    (handleCallbackPart1 "https://auth.sigmaidentity.com" "https://app.example"
        { code := some "abc", state := some "s" } { oauthState := some "s" }
        ⟨{ ok := false, status := 500, errorJson := none },
         { ok := true, status := 200 }⟩).result = .error tokenExchangeFailedError ∧
    invalidGrantError ≠ clientNotRegisteredError ∧
    invalidGrantError ≠ tokenExchangeFailedError ∧
    clientNotRegisteredError ≠ tokenExchangeFailedError :=
  C7_token_errors_distinguished "https://auth.sigmaidentity.com" "https://app.example"
    { code := some "abc", state := some "s" } { oauthState := some "s" }
    { ok := true, status := 200 } rfl (by decide) rfl

/-- C8 counterexample: the claim that a non-absolute `callbackURL` is
resolved against the current origin is false.  The code tests
`callbackPath.startsWith("http")`, so the relative path `httpx` — not an
absolute URL — is used verbatim as the redirect URI instead of being resolved
against the origin. -/
theorem C8_counterexample_http_prefix_not_absolute :
    isAbsoluteUrl "httpx" = false ∧
    resolveRedirectUri "https://app.example" (some "httpx") = "httpx" ∧
    ("httpx" : String) ≠ "https://app.example" ++ "/httpx" := by
  refine ⟨by decide, by decide, by decide⟩

/-- C8 (amended): in `signIn.sigma` without `authToken`, the `redirect_uri`
query parameter is `resolveRedirectUri origin callbackURL`, where a supplied
`callbackURL` is used verbatim exactly when it starts with the string `http`
(in particular every absolute http/https URL is used verbatim), any other
non-empty `callbackURL` is resolved against the current origin with a `/`
prepended when missing, and an absent `callbackURL` yields the current origin
with the default path `/callback`. -/
theorem C8_redirect_uri_resolution (authUrl origin state codeVerifier : String)
    (sha256 : List Nat → List Nat) (options : SigmaOptions) (store : Store)
    (u : String) :
    List.lookup "redirect_uri"
        (sigmaIndexTs authUrl origin state codeVerifier sha256 options store).queryParams =
      some (resolveRedirectUri origin options.callbackURL) ∧
    (options.callbackURL = none →
      resolveRedirectUri origin options.callbackURL = origin ++ "/callback") ∧
    (options.callbackURL = some u → strStartsWith u "http" = true →
      resolveRedirectUri origin options.callbackURL = u) ∧
    (options.callbackURL = some u → u ≠ "" → strStartsWith u "http" = false →
      resolveRedirectUri origin options.callbackURL =
        (if strStartsWith u "/" = true then origin ++ u else origin ++ "/" ++ u)) := by
  refine ⟨?_, ?_, ?_, ?_⟩
  · rcases hc : isTruthy options.clientId with _ | _ <;>
      rcases hp : isTruthy options.provider with _ | _ <;>
        simp [sigmaIndexTs, List.lookup, hc, hp]
  · intro h
    simp [resolveRedirectUri, h, orDefault, isTruthy,
      show strStartsWith "/callback" "http" = false from by decide,
      show strStartsWith "/callback" "/" = true from by decide]
  · intro h hpre
    have hu : u ≠ "" := by
      intro he
      rw [he] at hpre
      exact absurd hpre (by decide)
    simp [resolveRedirectUri, h, orDefault, isTruthy, hu, hpre]
  · intro h hu hpre
    simp [resolveRedirectUri, h, orDefault, isTruthy, hu, hpre]

/-- Witness for the amended C8, exercising each branch at concrete inputs:
no option gives `origin/callback`, an absolute URL is kept verbatim, and a
bare relative path gains a slash after the origin. -/
theorem C8_redirect_uri_resolution_witness :
    (resolveRedirectUri "https://app.example" none = "https://app.example/callback") ∧
    (resolveRedirectUri "https://app.example" (some "https://other.example/cb") =
      "https://other.example/cb") ∧
    (resolveRedirectUri "https://app.example" (some "done") =
      (if strStartsWith "done" "/" = true then "https://app.example" ++ "done"
       else "https://app.example" ++ "/" ++ "done")) :=
  ⟨(C8_redirect_uri_resolution "https://auth.sigmaidentity.com" "https://app.example"
      "s" "v" (fun _ => []) { callbackURL := none } {} "u").2.1 rfl,
   (C8_redirect_uri_resolution "https://auth.sigmaidentity.com" "https://app.example"
      "s" "v" (fun _ => []) { callbackURL := some "https://other.example/cb" } {}
      "https://other.example/cb").2.2.1 rfl (by decide),
   (C8_redirect_uri_resolution "https://auth.sigmaidentity.com" "https://app.example"
      "s" "v" (fun _ => []) { callbackURL := some "done" } {} "done").2.2.2
      rfl (by decide) (by decide)⟩

/-- C9: in `signIn.sigma` without `authToken` (PKCE variant of
`src/index.ts`), the constructed authorization URL's query parameters contain
`redirect_uri`, `response_type=code`, the freshly generated `state`, the
scope, `code_challenge` equal to the base64url SHA-256 hash of the generated
`codeVerifier`, `code_challenge_method=S256`, `client_id` exactly when a
(non-empty) `clientId` option is supplied, and `provider` exactly when a
(non-empty) `provider` option is supplied. -/
theorem C9_authorization_query_params (authUrl origin state codeVerifier : String)
    (sha256 : List Nat → List Nat) (options : SigmaOptions) (store : Store) :
    List.lookup "redirect_uri"
        (sigmaIndexTs authUrl origin state codeVerifier sha256 options store).queryParams =
      some (resolveRedirectUri origin options.callbackURL) ∧
    List.lookup "response_type"
        (sigmaIndexTs authUrl origin state codeVerifier sha256 options store).queryParams =
      some "code" ∧
    List.lookup "state"
        (sigmaIndexTs authUrl origin state codeVerifier sha256 options store).queryParams =
      some state ∧
    List.lookup "scope"
        (sigmaIndexTs authUrl origin state codeVerifier sha256 options store).queryParams =
      some "openid profile bsv:tools" ∧
    List.lookup "code_challenge"
        (sigmaIndexTs authUrl origin state codeVerifier sha256 options store).queryParams =
      some (base64Url (sha256 (utf8Bytes codeVerifier))) ∧
    List.lookup "code_challenge_method"
        (sigmaIndexTs authUrl origin state codeVerifier sha256 options store).queryParams =
      some "S256" ∧
    List.lookup "client_id"
        (sigmaIndexTs authUrl origin state codeVerifier sha256 options store).queryParams =
      (if isTruthy options.clientId then some (options.clientId.getD "") else none) ∧
    List.lookup "provider"
        (sigmaIndexTs authUrl origin state codeVerifier sha256 options store).queryParams =
      (if isTruthy options.provider then some (options.provider.getD "") else none) := by
  rcases hc : isTruthy options.clientId with _ | _ <;>
    rcases hp : isTruthy options.provider with _ | _ <;>
      simp [sigmaIndexTs, List.lookup, hc, hp, generateCodeChallenge]

/-- The `part_001` client-id default is never the empty string: either the
truthy supplied value or the literal `unknown`. -/
theorem orDefault_unknown_ne_empty (x : Option String) : orDefault x "unknown" ≠ "" := by
  rcases x with _ | s
  · simp [orDefault, isTruthy]
  · by_cases h : s = "" <;> simp [orDefault, isTruthy, h]

/-- C10: in the `part_001` variant, `signIn.sigma` without a `clientId`
option uses the literal string `unknown` as the client id: it is stored as
`oauth_client_id`; the authorization URL always carries a `client_id`
parameter (`client_id` is never actually omitted — the supplied value when
truthy, otherwise `unknown`); and when `handleCallback` reaches the token
exchange with the stored `oauth_client_id` missing, the token request
substitutes `unknown` as its `client_id`. -/
theorem C10_unknown_client_id_default (authUrl origin state codeVerifier : String)
    (sha256 : List Nat → List Nat) (options : SigmaOptions) (store : Store)
    (params : CallbackParams) (cbStore : Store) (oracle : Oracle)
    (herr : params.error = none) (hcode : isTruthy params.code = true)
    (hmatch : params.state = cbStore.oauthState)
    (hnone : cbStore.oauthClientId = none) :
    (options.clientId = none →
      (sigmaPart1 authUrl origin state codeVerifier sha256 options store).store.oauthClientId =
        some "unknown") ∧
    List.lookup "client_id"
        (sigmaPart1 authUrl origin state codeVerifier sha256 options store).queryParams =
      some (orDefault options.clientId "unknown") ∧
    (∃ tf, (handleCallbackPart1 authUrl origin params cbStore oracle).calls.head? =
        some (.tokenPost (authUrl ++ "/api/auth/oauth2/token") tf) ∧
      List.lookup "client_id" tf = some "unknown") := by
  obtain ⟨-, hhead, -⟩ := handleCallbackPart1_matched authUrl origin params cbStore oracle
    (by simp [herr, isTruthy]) hcode hmatch
  refine ⟨?_, ?_, ?_⟩
  · intro h
    simp [sigmaPart1, h, orDefault, isTruthy]
  · rcases hp : isTruthy options.provider with _ | _ <;>
      simp [sigmaPart1, List.lookup, hp, orDefault_unknown_ne_empty options.clientId]
  · refine ⟨_, hhead, ?_⟩
    simp [List.lookup, hnone, orDefault, isTruthy]

/-- Witness for C10 at concrete inputs: no `clientId` option, matching
callback state, empty stored client id. -/
theorem C10_unknown_client_id_default_witness :
    (( { } : SigmaOptions).clientId = none →
      (sigmaPart1 "https://auth.sigmaidentity.com" "https://app.example" "s" "v"
          (fun _ => []) {} {}).store.oauthClientId = some "unknown") ∧
    List.lookup "client_id"
        (sigmaPart1 "https://auth.sigmaidentity.com" "https://app.example" "s" "v"
          (fun _ => []) {} {}).queryParams =
      some (orDefault (( { } : SigmaOptions).clientId) "unknown") ∧
    (∃ tf, (handleCallbackPart1 "https://auth.sigmaidentity.com" "https://app.example"
        { code := some "abc", state := some "s" } { oauthState := some "s" }
        ⟨{ ok := true, status := 200, okJson := some { accessToken := "tok1" } },
         { ok := true, status := 200, json := some "u" }⟩).calls.head? =
        some (.tokenPost ("https://auth.sigmaidentity.com" ++ "/api/auth/oauth2/token") tf) ∧
      List.lookup "client_id" tf = some "unknown") :=
  C10_unknown_client_id_default "https://auth.sigmaidentity.com" "https://app.example"
    "s" "v" (fun _ => []) {} {}
    { code := some "abc", state := some "s" } { oauthState := some "s" }
    ⟨{ ok := true, status := 200, okJson := some { accessToken := "tok1" } },
     { ok := true, status := 200, json := some "u" }⟩
    rfl (by decide) rfl rfl

end SigmaAuth
